import Mathlib

/-!
Shallow embedding of `src/src/defaults/kernelStatus.tsx` (jupyterlab-statusbar
kernel-status widget).

Sessions (`IClientSession`) are embedded as records carrying the members the
component reads (`status`, `kernelDisplayName`, `type`) plus a numeric `id`
standing for JavaScript object identity, used to track which session objects
have the model's handlers connected to their `statusChanged` / `kernelChanged`
signals.  Signal emission of `stateChanged` is counted.  All TS strings are
Lean `String`s; `Kernel.Status` is a string in the host API and is embedded as
`String`.
-/

namespace KernelStatusSpec

/-- Embedding of `IClientSession`: the members read by the component, plus an
`id` standing for object identity (distinct session objects have distinct
ids). -/
structure ClientSession where
  id : Nat
  status : String
  kernelDisplayName : String
  type : String
  deriving DecidableEq, Repr

/-- Embedding of `Kernel.IKernelConnection` as read by `_onKernelChanged`:
`newValue.status` and `newValue.model.name`. -/
structure KernelConnection where
  status : String
  modelName : String
  deriving DecidableEq, Repr

/-- Embedding of `KernelStatus.Model`'s private state.  `statusListeners`
(resp. `kernelListeners`) records the ids of the session objects whose
`statusChanged` (resp. `kernelChanged`) signal currently has the model's
handler connected.  `stateChangedCount` counts emissions of `stateChanged`. -/
structure Model where
  kernelName : String
  kernelStatus : String
  session : Option ClientSession
  statusListeners : List Nat
  kernelListeners : List Nat
  stateChangedCount : Nat
  deriving DecidableEq, Repr

namespace Model

/-- Getter `get name()`. -/
def name (m : Model) : String := m.kernelName

/-- Getter `get status()`. -/
def status (m : Model) : String := m.kernelStatus

/-- Getter `get type()`: `this._session && this._session.type`. -/
def type (m : Model) : Option String := m.session.map ClientSession.type

/-- Phosphor `Signal.connect`: appends the slot unless already connected. -/
def connect (l : List Nat) (sid : Nat) : List Nat :=
  if sid ∈ l then l else l ++ [sid]

/-- Phosphor `Signal.disconnect`: removes the slot. -/
def disconnect (l : List Nat) (sid : Nat) : List Nat :=
  l.filter (fun x => x ≠ sid)

/-- First stage of the setter (lines 184-190): if a session was attached,
disconnect its `statusChanged` and `kernelChanged` listeners. -/
def detachCurrent (m : Model) : Model :=
  match m.session with
  | some old =>
      { m with
        statusListeners := disconnect m.statusListeners old.id,
        kernelListeners := disconnect m.kernelListeners old.id }
  | none => m

/-- Second stage of the setter (lines 192-205): store the new session, then
either reset to the "unknown" sentinels (null session) or copy `status` and
lower-cased `kernelDisplayName` and connect the two listeners. -/
def attachNew (m : Model) (session : Option ClientSession) : Model :=
  match session with
  | none =>
      { m with session := none, kernelStatus := "unknown", kernelName := "unknown" }
  | some s =>
      { m with
        session := some s,
        kernelStatus := s.status,
        kernelName := s.kernelDisplayName.toLower,
        statusListeners := connect m.statusListeners s.id,
        kernelListeners := connect m.kernelListeners s.id }

/-- Final stage (line 207): `this.stateChanged.emit(void 0)`. -/
def emitStateChanged (m : Model) : Model :=
  { m with stateChangedCount := m.stateChangedCount + 1 }

/-- Embedding of `set session(session)` (kernelStatus.tsx lines 183-208):
disconnect the old session's two listeners, store the new session and attach
its listeners (or reset to sentinels), finally emit `stateChanged`. -/
def setSession (m : Model) (session : Option ClientSession) : Model :=
  emitStateChanged (attachNew (detachCurrent m) session)

/-- Embedding of `_onKernelStatusChanged` (lines 210-216). -/
def onKernelStatusChanged (m : Model) (status : String) : Model :=
  { m with kernelStatus := status, stateChangedCount := m.stateChangedCount + 1 }

/-- Embedding of `_onKernelChanged` (lines 218-232). -/
def onKernelChanged (m : Model) (newValue : Option KernelConnection) : Model :=
  let m1 :=
    match newValue with
    | some k =>
        { m with kernelStatus := k.status, kernelName := k.modelName.toLower }
    | none =>
        { m with kernelStatus := "unknown", kernelName := "unknown" }
  { m1 with stateChangedCount := m1.stateChangedCount + 1 }

/-- A session object's `statusChanged` signal reaches the model's handler only
if the handler is currently connected to it. -/
def deliverStatusChanged (m : Model) (sid : Nat) (status : String) : Model :=
  if sid ∈ m.statusListeners then onKernelStatusChanged m status else m

/-- A session object's `kernelChanged` signal reaches the model's handler only
if the handler is currently connected to it. -/
def deliverKernelChanged (m : Model) (sid : Nat)
    (newValue : Option KernelConnection) : Model :=
  if sid ∈ m.kernelListeners then onKernelChanged m newValue else m

/-- Embedding of the `Model` constructor (lines 162-165): the field defaults
(`'unknown'`, `'unknown'`, `null`, no listeners) followed by `this.session =
session`. -/
def initModel (session : Option ClientSession) : Model :=
  setSession
    { kernelName := "unknown", kernelStatus := "unknown", session := none,
      statusListeners := [], kernelListeners := [], stateChangedCount := 0 }
    session

/-- The listener ids a session reference accounts for: the current session's
id, or nothing. -/
def sessionIds : Option ClientSession → List Nat
  | none => []
  | some s => [s.id]

/-- The listener bookkeeping invariant: exactly the current session's two
signals have the model's handlers connected. -/
def listenerInvariant (m : Model) : Prop :=
  m.statusListeners = sessionIds m.session ∧
  m.kernelListeners = sessionIds m.session

instance (m : Model) : Decidable (listenerInvariant m) := by
  unfold listenerInvariant; infer_instance

end Model

/-- A widget that can be the shell's current widget, as discriminated by
`_getFocusedSession` (lines 131-143): a `NotebookPanel` (carrying its
session), a `ConsolePanel` (carrying its session), or any other widget. -/
inductive PanelWidget where
  | notebookPanel (session : ClientSession)
  | consolePanel (session : ClientSession)
  | otherWidget
  deriving DecidableEq, Repr

/-- Embedding of `_getFocusedSession` (lines 131-143). -/
def getFocusedSession : Option PanelWidget → Option ClientSession
  | none => none
  | some (.notebookPanel s) => some s
  | some (.consolePanel s) => some s
  | some .otherWidget => none

/-- Widget-side state: the view model plus whether the `interactiveItem`
class is present on the widget node. -/
structure WidgetState where
  model : Model
  interactive : Bool
  deriving DecidableEq, Repr

/-- Embedding of `_onNotebookChange` (lines 115-121): push
`panel && panel.session` into the model and add the interactive class. -/
def onNotebookChange (w : WidgetState) (panel : Option ClientSession) : WidgetState :=
  { model := w.model.setSession panel, interactive := true }

/-- Embedding of `_onConsoleChange` (lines 123-129): push
`panel && panel.session` into the model and remove the interactive class. -/
def onConsoleChange (w : WidgetState) (panel : Option ClientSession) : WidgetState :=
  { model := w.model.setSession panel, interactive := false }

/-- Embedding of `_onMainAreaCurrentChange` (lines 145-152): resolve the new
shell current widget to a session and push it into the model. -/
def onMainAreaCurrentChange (w : WidgetState) (newValue : Option PanelWidget) : WidgetState :=
  { w with model := w.model.setSession (getFocusedSession newValue) }

/-- Embedding of `onUpdateRequest` (lines 95-107): push the session resolved
from the shell's current widget into the model, then toggle the interactive
class on whether the model's type is "notebook". -/
def onUpdateRequest (w : WidgetState) (shellCurrent : Option PanelWidget) : WidgetState :=
  let m := w.model.setSession (getFocusedSession shellCurrent)
  { model := m, interactive := m.type = some "notebook" }

/-- A focus-change event delivered to the widget: one of the three connected
signals. `notebookChange`/`consoleChange` carry the new panel's session (or
none), `mainAreaChange` carries the shell's new current widget. -/
inductive FocusEvent where
  | notebookChange (panel : Option ClientSession)
  | consoleChange (panel : Option ClientSession)
  | mainAreaChange (newValue : Option PanelWidget)
  deriving DecidableEq, Repr

/-- Dispatch of a focus-change event to its handler. -/
def handleFocusEvent (w : WidgetState) (e : FocusEvent) : WidgetState :=
  match e with
  | .notebookChange panel => onNotebookChange w panel
  | .consoleChange panel => onConsoleChange w panel
  | .mainAreaChange v => onMainAreaCurrentChange w v

/-- The focused widget an event reports: a notebook panel, a console panel,
or none. -/
def eventWidget : FocusEvent → Option PanelWidget
  | .notebookChange none => none
  | .notebookChange (some s) => some (.notebookPanel s)
  | .consoleChange none => none
  | .consoleChange (some s) => some (.consolePanel s)
  | .mainAreaChange v => v

/-- Embedding of `_handleClick` (lines 109-113): the list of command ids
executed on the command registry by one click. -/
def handleClick (m : Model) : List String :=
  if m.type = some "notebook" then ["notebook:change-kernel"] else []

/-- Modelled from the spec: `TextExt.titleCase` lives in `src/util/text`,
which is not part of this repository snapshot; the spec describes it as
Title-casing ("python3" renders as "Python3", "idle" as "Idle"), i.e.
capitalising the first letter. -/
def titleCase (s : String) : String := s.capitalize

/-- Embedding of `KernelStatus.render` together with `KernelStatusComponent`
(lines 28-40 and 73-85): `null` when the model is absent, otherwise the text
label source string built from the model's name and status. -/
def render (model : Option Model) : Option String :=
  match model with
  | none => none
  | some m => some (titleCase m.name ++ " | " ++ titleCase m.status)

/-! ## Helper lemmas -/

theorem mem_connect_self (l : List Nat) (sid : Nat) : sid ∈ Model.connect l sid := by
  unfold Model.connect
  split <;> simp_all

theorem mem_connect_iff (l : List Nat) (sid x : Nat) :
    x ∈ Model.connect l sid ↔ x ∈ l ∨ x = sid := by
  unfold Model.connect
  split
  · next h => exact ⟨Or.inl, fun hc => hc.elim id (fun he => he ▸ h)⟩
  · simp

theorem mem_disconnect_iff (l : List Nat) (sid x : Nat) :
    x ∈ Model.disconnect l sid ↔ x ∈ l ∧ x ≠ sid := by
  unfold Model.disconnect
  simp [List.mem_filter]

theorem mem_connect_disconnect_iff (l : List Nat) (sid x : Nat) (h : sid ∈ l) :
    x ∈ Model.connect (Model.disconnect l sid) sid ↔ x ∈ l := by
  rw [mem_connect_iff, mem_disconnect_iff]
  constructor
  · rintro (⟨h1, _⟩ | rfl)
    · exact h1
    · exact h
  · intro hx
    by_cases hxe : x = sid
    · exact Or.inr hxe
    · exact Or.inl ⟨hx, hxe⟩

theorem setSession_session (m : Model) (s : Option ClientSession) :
    (m.setSession s).session = s := by
  cases s <;> rfl

theorem detachCurrent_count (m : Model) :
    m.detachCurrent.stateChangedCount = m.stateChangedCount := by
  unfold Model.detachCurrent
  cases m.session <;> rfl

theorem attachNew_count (m : Model) (s : Option ClientSession) :
    (m.attachNew s).stateChangedCount = m.stateChangedCount := by
  unfold Model.attachNew
  cases s <;> rfl

theorem setSession_count (m : Model) (s : Option ClientSession) :
    (m.setSession s).stateChangedCount = m.stateChangedCount + 1 := by
  unfold Model.setSession Model.emitStateChanged
  rw [attachNew_count, detachCurrent_count]

theorem setSession_preserves_invariant (m : Model) (s : Option ClientSession)
    (h : m.listenerInvariant) : (m.setSession s).listenerInvariant := by
  obtain ⟨h1, h2⟩ := h
  unfold Model.listenerInvariant Model.setSession Model.emitStateChanged
    Model.attachNew Model.detachCurrent
  cases hm : m.session <;> cases s <;>
    simp_all [Model.sessionIds, Model.connect, Model.disconnect]

theorem initModel_invariant (s0 : Option ClientSession) :
    (Model.initModel s0).listenerInvariant := by
  unfold Model.initModel
  exact setSession_preserves_invariant _ _ ⟨rfl, rfl⟩

theorem foldl_setSession_invariant (s0 : Option ClientSession)
    (l : List (Option ClientSession)) :
    (l.foldl Model.setSession (Model.initModel s0)).listenerInvariant := by
  suffices h : ∀ m : Model, m.listenerInvariant →
      (l.foldl Model.setSession m).listenerInvariant from
    h _ (initModel_invariant s0)
  induction l with
  | nil => exact fun m hm => hm
  | cons a t ih => exact fun m hm => ih _ (setSession_preserves_invariant m a hm)

theorem handleFocusEvent_session (w : WidgetState) (e : FocusEvent) :
    (handleFocusEvent w e).model.session = getFocusedSession (eventWidget e) := by
  cases e with
  | notebookChange p =>
      cases p <;>
        simp [handleFocusEvent, onNotebookChange, eventWidget, getFocusedSession,
          setSession_session]
  | consoleChange p =>
      cases p <;>
        simp [handleFocusEvent, onConsoleChange, eventWidget, getFocusedSession,
          setSession_session]
  | mainAreaChange v =>
      simp [handleFocusEvent, onMainAreaCurrentChange, eventWidget,
        setSession_session]

/-- Concrete session used in witnesses. -/
def sessA : ClientSession :=
  { id := 0, status := "idle", kernelDisplayName := "Python 3", type := "notebook" }

/-- Concrete session used in witnesses. -/
def sessB : ClientSession :=
  { id := 1, status := "busy", kernelDisplayName := "Julia", type := "console" }

/-! ## Claim theorems -/

/-- C3: every call to the session setter (kernelStatus.tsx lines 183-208),
with any argument and from any prior model state, emits exactly one
`stateChanged` notification, even when nothing changed. -/
theorem setSession_emits_exactly_one (m : Model) (s : Option ClientSession) :
    (m.setSession s).stateChangedCount = m.stateChangedCount + 1 :=
  setSession_count m s

/-- C1: the session setter (lines 183-208) disconnects the prior session's
two listeners before installing the new session's, so from the constructor
onwards at most one session's subscriptions are active (the listener
invariant holds after any sequence of setter calls), and after attaching T
the prior session S holds no subscription any more: delivering S's
status-changed or kernel-changed signals leaves the model unchanged. -/
theorem session_setter_listener_swap (m : Model) (S T : ClientSession)
    (hinv : m.listenerInvariant) (hS : m.session = some S) (hne : S.id ≠ T.id) :
    (∀ (s0 : Option ClientSession) (l : List (Option ClientSession)),
        (l.foldl Model.setSession (Model.initModel s0)).listenerInvariant) ∧
    (m.setSession (some T)).listenerInvariant ∧
    (m.setSession (some T)).statusListeners = [T.id] ∧
    (m.setSession (some T)).kernelListeners = [T.id] ∧
    S.id ∉ (m.setSession (some T)).statusListeners ∧
    S.id ∉ (m.setSession (some T)).kernelListeners ∧
    (∀ v, (m.setSession (some T)).deliverStatusChanged S.id v =
        m.setSession (some T)) ∧
    (∀ k, (m.setSession (some T)).deliverKernelChanged S.id k =
        m.setSession (some T)) := by
  obtain ⟨h1, h2⟩ := hinv
  have hs : (m.setSession (some T)).statusListeners = [T.id] := by
    unfold Model.setSession Model.emitStateChanged Model.attachNew
      Model.detachCurrent
    simp [hS, h1, Model.sessionIds, Model.disconnect, Model.connect]
  have hk : (m.setSession (some T)).kernelListeners = [T.id] := by
    unfold Model.setSession Model.emitStateChanged Model.attachNew
      Model.detachCurrent
    simp [hS, h2, Model.sessionIds, Model.disconnect, Model.connect]
  refine ⟨foldl_setSession_invariant, ?_, hs, hk, ?_, ?_, ?_, ?_⟩
  · exact setSession_preserves_invariant m (some T) ⟨h1, h2⟩
  · rw [hs]; simp [hne]
  · rw [hk]; simp [hne]
  · intro v
    unfold Model.deliverStatusChanged
    rw [hs]; simp [hne]
  · intro k
    unfold Model.deliverKernelChanged
    rw [hk]; simp [hne]

/-- Witness for C1 at a concrete model and sessions. -/
theorem session_setter_listener_swap_witness :
    (Model.initModel (some sessA)).listenerInvariant ∧
    (Model.initModel (some sessA)).session = some sessA ∧
    sessA.id ≠ sessB.id ∧
    ((Model.initModel (some sessA)).setSession (some sessB)).statusListeners
      = [sessB.id] ∧
    sessA.id ∉
      ((Model.initModel (some sessA)).setSession (some sessB)).kernelListeners := by
  have h := session_setter_listener_swap (Model.initModel (some sessA))
    sessA sessB (by decide) (by decide) (by decide)
  exact ⟨by decide, by decide, by decide, h.2.2.1, h.2.2.2.2.2.1⟩

/-- C2: after `session = none` the model reads name "unknown", status
"unknown" and type none; after `session = s` the model reads s's current
status and s's kernel display name lower-cased, and s's status-changed and
kernel-changed signals carry the model's handlers. -/
theorem session_setter_fields (m : Model) (s : ClientSession) :
    (m.setSession none).name = "unknown" ∧
    (m.setSession none).status = "unknown" ∧
    (m.setSession none).type = none ∧
    (m.setSession (some s)).status = s.status ∧
    (m.setSession (some s)).name = s.kernelDisplayName.toLower ∧
    s.id ∈ (m.setSession (some s)).statusListeners ∧
    s.id ∈ (m.setSession (some s)).kernelListeners :=
  ⟨rfl, rfl, rfl, rfl, rfl, mem_connect_self _ _, mem_connect_self _ _⟩

/-- C4: after any nonempty sequence of focus-change events, the model's
session is the last event's panel session exactly when that event focused a
notebook panel or a console panel, and none for any other widget or no
widget. -/
theorem focus_resolution (w : WidgetState) (es : List FocusEvent) (e : FocusEvent) :
    (∀ s, eventWidget e = some (PanelWidget.notebookPanel s) →
        ((es ++ [e]).foldl handleFocusEvent w).model.session = some s) ∧
    (∀ s, eventWidget e = some (PanelWidget.consolePanel s) →
        ((es ++ [e]).foldl handleFocusEvent w).model.session = some s) ∧
    ((eventWidget e = none ∨ eventWidget e = some PanelWidget.otherWidget) →
        ((es ++ [e]).foldl handleFocusEvent w).model.session = none) := by
  have hfold : (es ++ [e]).foldl handleFocusEvent w =
      handleFocusEvent (es.foldl handleFocusEvent w) e := by
    rw [List.foldl_append]
    rfl
  rw [hfold]
  rw [handleFocusEvent_session]
  refine ⟨?_, ?_, ?_⟩
  · intro s hs; rw [hs]; rfl
  · intro s hs; rw [hs]; rfl
  · rintro (hs | hs) <;> rw [hs] <;> rfl

/-- Witness for C4 at concrete event sequences. -/
theorem focus_resolution_witness :
    (([FocusEvent.consoleChange (some sessB)] ++
        [FocusEvent.notebookChange (some sessA)]).foldl handleFocusEvent
      { model := Model.initModel none, interactive := false }).model.session
      = some sessA ∧
    (([FocusEvent.notebookChange (some sessA)] ++
        [FocusEvent.mainAreaChange (some PanelWidget.otherWidget)]).foldl
      handleFocusEvent
      { model := Model.initModel none, interactive := false }).model.session
      = none := by
  constructor
  · exact (focus_resolution _ [FocusEvent.consoleChange (some sessB)]
      (FocusEvent.notebookChange (some sessA))).1 sessA (by decide)
  · exact (focus_resolution _ [FocusEvent.notebookChange (some sessA)]
      (FocusEvent.mainAreaChange (some PanelWidget.otherWidget))).2.2
      (Or.inr (by decide))

/-- C5: the kernel-changed handler (lines 218-232) is a total function on the
model state (absence of a kernel is handled by the "unknown" sentinels, never
by failing): with a new kernel it copies its status and lower-cased model
name; with no kernel it resets both to "unknown"; either way it emits one
`stateChanged`. -/
theorem kernel_changed_spec (m : Model) (k : KernelConnection) :
    (m.onKernelChanged (some k)).status = k.status ∧
    (m.onKernelChanged (some k)).name = k.modelName.toLower ∧
    (m.onKernelChanged none).status = "unknown" ∧
    (m.onKernelChanged none).name = "unknown" ∧
    (m.onKernelChanged (some k)).stateChangedCount = m.stateChangedCount + 1 ∧
    (m.onKernelChanged none).stateChangedCount = m.stateChangedCount + 1 := by
  unfold Model.onKernelChanged Model.name Model.status
  exact ⟨rfl, rfl, rfl, rfl, rfl, rfl⟩

/-- C6: the status-changed handler (lines 210-216) overwrites the stored
status with the delivered value and emits one `stateChanged`, leaving name,
type, session and the installed listeners unchanged. -/
theorem status_changed_spec (m : Model) (v : String) :
    (m.onKernelStatusChanged v).status = v ∧
    (m.onKernelStatusChanged v).stateChangedCount = m.stateChangedCount + 1 ∧
    (m.onKernelStatusChanged v).name = m.name ∧
    (m.onKernelStatusChanged v).type = m.type ∧
    (m.onKernelStatusChanged v).session = m.session ∧
    (m.onKernelStatusChanged v).statusListeners = m.statusListeners ∧
    (m.onKernelStatusChanged v).kernelListeners = m.kernelListeners := by
  unfold Model.onKernelStatusChanged Model.name Model.status Model.type
  exact ⟨rfl, rfl, rfl, rfl, rfl, rfl, rfl⟩

/-- C7: with no model nothing is rendered; with a model of name n and status
s the rendered label is Title-cased n, " | ", Title-cased s; in particular
name "python3" and status "idle" render as "Python3 | Idle". -/
theorem render_spec (m : Model) :
    render none = none ∧
    render (some m) = some (titleCase m.name ++ " | " ++ titleCase m.status) ∧
    (∀ m2 : Model, m2.name = "python3" → m2.status = "idle" →
        render (some m2) = some "Python3 | Idle") := by
  refine ⟨rfl, rfl, ?_⟩
  intro m2 hn hs
  show some (titleCase m2.name ++ " | " ++ titleCase m2.status) = _
  rw [hn, hs]
  rfl

/-- A concrete model state with name "python3" and status "idle". -/
def pyModel : Model :=
  { kernelName := "python3", kernelStatus := "idle", session := none,
    statusListeners := [], kernelListeners := [], stateChangedCount := 0 }

/-- Witness for C7 at a concrete model. -/
theorem render_spec_witness :
    render (some pyModel) = some "Python3 | Idle" :=
  (render_spec pyModel).2.2 pyModel rfl rfl

/-- C8: a click (lines 109-113) executes exactly the one command
"notebook:change-kernel" when the model's type is "notebook", and executes
nothing for any other type, including none. -/
theorem click_spec (m : Model) :
    (m.type = some "notebook" → handleClick m = ["notebook:change-kernel"]) ∧
    (m.type ≠ some "notebook" → handleClick m = []) := by
  unfold handleClick
  constructor <;> intro h <;> simp [h]

/-- Witness for C8 at concrete models. -/
theorem click_spec_witness :
    handleClick (Model.initModel (some sessA)) = ["notebook:change-kernel"] ∧
    handleClick (Model.initModel none) = [] :=
  ⟨(click_spec (Model.initModel (some sessA))).1 (by decide),
   (click_spec (Model.initModel none)).2 (by decide)⟩

/-- C9: the notebook-focus handler always adds the "interactive" class, the
console-focus handler always removes it, and the update-request handler
leaves it present exactly when the model's type resolves to "notebook". -/
theorem interactive_class_spec (w : WidgetState) (p : Option ClientSession)
    (v : Option PanelWidget) :
    (onNotebookChange w p).interactive = true ∧
    (onConsoleChange w p).interactive = false ∧
    ((onUpdateRequest w v).interactive = true ↔
        (onUpdateRequest w v).model.type = some "notebook") := by
  refine ⟨rfl, rfl, ?_⟩
  unfold onUpdateRequest
  simp

/-- C10: assigning the same session twice in a row leaves name, status, type,
session and the set of installed listeners as after the first assignment,
while the second assignment still emits its own `stateChanged`. -/
theorem setSession_idempotent (m : Model) (s : Option ClientSession) :
    ((m.setSession s).setSession s).name = (m.setSession s).name ∧
    ((m.setSession s).setSession s).status = (m.setSession s).status ∧
    ((m.setSession s).setSession s).type = (m.setSession s).type ∧
    ((m.setSession s).setSession s).session = (m.setSession s).session ∧
    (∀ x, x ∈ ((m.setSession s).setSession s).statusListeners ↔
        x ∈ (m.setSession s).statusListeners) ∧
    (∀ x, x ∈ ((m.setSession s).setSession s).kernelListeners ↔
        x ∈ (m.setSession s).kernelListeners) ∧
    ((m.setSession s).setSession s).stateChangedCount =
        (m.setSession s).stateChangedCount + 1 := by
  cases s with
  | none =>
      exact ⟨rfl, rfl, rfl, rfl, fun x => Iff.rfl, fun x => Iff.rfl,
        setSession_count _ _⟩
  | some s' =>
      have hmem1 : s'.id ∈ (m.setSession (some s')).statusListeners :=
        mem_connect_self _ _
      have hmem2 : s'.id ∈ (m.setSession (some s')).kernelListeners :=
        mem_connect_self _ _
      exact ⟨rfl, rfl, rfl, rfl,
        fun x => mem_connect_disconnect_iff _ _ x hmem1,
        fun x => mem_connect_disconnect_iff _ _ x hmem2,
        setSession_count _ _⟩

end KernelStatusSpec
